import Mathlib

/-!
Verification of the packet dumper node of the astilibav package
(src/libav/pkt_dumper.go).

The Go code is embedded shallowly:

* A `Packet` carries the attributes the dumper reads: `Pts()`,
  `StreamIndex()` and the payload bytes (`Data()`/`Size()`).
* The Go `map[string]interface{}` naming-variable map is an association
  list from `String` to `GoVal` with Go map lookup/update semantics.
* The compiled `text/template` and the pluggable `PktDumpFunc` are
  external collaborators; they are modelled as abstract functions
  (`execute` renders the naming map to a string or fails, `fn` dumps a
  packet to a destination or fails).
* Event emission (`d.e(astiencoder.EventError(errors.Wrapf(...)))`) is
  modelled by a structured `Event` carrying exactly the format arguments
  of the corresponding `errors.Wrapf` call.
* The body of the per-item closure passed to `d.q.Start` in
  `PktDumper.Start` is `handlePkt`; it also records a trace of the
  operations it performs, in the order the Go statements execute.
  `d.statIncomingRate.Add(1)` increments a counter;
  `d.statWorkRatio.Add(true)` / `Done(true)` are the work-measurement
  brackets; `defer d.HandlePause()` is the pause-gate check which Go
  defers to the exit of the closure. The body of `HandlePause` lives in
  the astiencoder package outside this slice and is modelled as an
  opaque `Op.pauseCheck` trace marker; only its position is taken from
  the source.
* `atomic.AddUint32(&d.count, 1)` and `atomic.AddUint64(&countPktDumper, 1)`
  wrap modulo 2^32 and 2^64 respectively; counters are `Nat` reduced by
  the corresponding modulus.
* `PktDumpFile` runs against a model of the OS: a file system is an
  association list from path to byte contents, and an `OSModel` decides
  whether `os.Create` and `File.Write` succeed at a given path.
-/

namespace Astilibav

/-- A value stored in the Go `map[string]interface{}` naming-variable map:
the `uint32` sequence count, an integer (`pts`, `stream_idx`), or any
user-supplied static value. -/
inductive GoVal where
  | vUInt32 (n : Nat)
  | vInt (i : Int)
  | vOther (s : String)
deriving DecidableEq

/-- The attributes of `*avcodec.Packet` consumed by the dumper. -/
structure Packet where
  pts : Int
  streamIndex : Int
  payload : List Nat
deriving DecidableEq

/-- Go map update: replace the value at a key, or add the binding. -/
def mapSet {α : Type} : List (String × α) → String → α → List (String × α)
  | [], k, v => [(k, v)]
  | (k0, v0) :: rest, k, v =>
      if k0 = k then (k, v) :: rest else (k0, v0) :: mapSet rest k v

/-- Go map lookup. -/
def mapGet {α : Type} : List (String × α) → String → Option α
  | [], _ => none
  | (k0, v0) :: rest, k => if k0 = k then some v0 else mapGet rest k

/-- An error event emitted through `d.e(astiencoder.EventError(errors.Wrapf(...)))`.
Each constructor corresponds to one `Wrapf` call site in the dispatch
closure and carries exactly its format arguments plus the wrapped cause:
`errExecuteTemplate` for "executing template %s with data %+v failed"
(arguments: the pattern and the naming map), `errDumpFn` for
"pkt dump func with pattern %s failed" (argument: `buf`, the rendered
name). -/
inductive Event where
  | errExecuteTemplate (tmplPattern : String) (dta : List (String × GoVal)) (cause : String)
  | errDumpFn (renderedName : String) (cause : String)
deriving DecidableEq

/-- One observable operation of the node, in source order. -/
inductive Op where
  | parseTemplate (tmplPattern : String)
  | incIncomingRate
  | incCount (c : Nat)
  | publishData (c : Nat) (pts : Int) (streamIdx : Int)
  | workAdd
  | workDone
  | executeTemplate (ok : Bool)
  | callDumpFn (renderedName : String)
  | emitEvent (e : Event)
  | pauseCheck
deriving DecidableEq

/-- The mutable state of one `PktDumper` together with its observable
effects: `count` is the `uint32` field `d.count`, `data` the naming map
`d.data`, `incomingRate` the accumulated `statIncomingRate` count,
`events` the emitted error events, `dumps` the invocations of the dump
strategy `d.fn` (packet and rendered destination, in call order), and
`trace` the operation log. -/
structure DumperState where
  count : Nat
  data : List (String × GoVal)
  incomingRate : Nat
  events : List Event
  dumps : List (Packet × String)
  trace : List Op
deriving DecidableEq

/-- The immutable configuration of one `PktDumper`: the pattern string,
the compiled template's execute function, and the dump strategy. -/
structure NodeCfg where
  tmplPattern : String
  execute : List (String × GoVal) → Except String String
  fn : Packet → String → Except String Unit

/-- `atomic.AddUint32(&d.count, 1)`: the new value of the counter,
wrapping modulo 2^32. -/
def newCount (s : DumperState) : Nat := (s.count + 1) % 2 ^ 32

/-- The naming map after the three assignments
`d.data["count"] = c; d.data["pts"] = pkt.Pts(); d.data["stream_idx"] = pkt.StreamIndex()`. -/
def publishVars (s : DumperState) (pkt : Packet) : List (String × GoVal) :=
  mapSet (mapSet (mapSet s.data "count" (GoVal.vUInt32 (newCount s)))
      "pts" (GoVal.vInt pkt.pts))
    "stream_idx" (GoVal.vInt pkt.streamIndex)

/-- The per-item closure passed to `d.q.Start` in `PktDumper.Start`:
defer the pause-gate check; increment the incoming rate; increment
`d.count`; publish `count`/`pts`/`stream_idx`; execute the template
inside a work bracket (on error emit an event and return); invoke the
dump strategy inside a second work bracket (on error emit an event and
return). The deferred pause check runs at every exit. -/
def handlePkt (cfg : NodeCfg) (s : DumperState) (pkt : Packet) : DumperState :=
  let c := newCount s
  let dta := publishVars s pkt
  let pre : List Op :=
    [Op.incIncomingRate, Op.incCount c, Op.publishData c pkt.pts pkt.streamIndex, Op.workAdd]
  match cfg.execute dta with
  | Except.error e =>
      { count := c, data := dta, incomingRate := s.incomingRate + 1,
        dumps := s.dumps,
        events := s.events ++ [Event.errExecuteTemplate cfg.tmplPattern dta e],
        trace := s.trace ++ pre ++
          [Op.executeTemplate false, Op.workDone,
           Op.emitEvent (Event.errExecuteTemplate cfg.tmplPattern dta e), Op.pauseCheck] }
  | Except.ok nm =>
      match cfg.fn pkt nm with
      | Except.error e =>
          { count := c, data := dta, incomingRate := s.incomingRate + 1,
            dumps := s.dumps ++ [(pkt, nm)],
            events := s.events ++ [Event.errDumpFn nm e],
            trace := s.trace ++ pre ++
              [Op.executeTemplate true, Op.workDone, Op.workAdd, Op.callDumpFn nm,
               Op.workDone, Op.emitEvent (Event.errDumpFn nm e), Op.pauseCheck] }
      | Except.ok _ =>
          { count := c, data := dta, incomingRate := s.incomingRate + 1,
            dumps := s.dumps ++ [(pkt, nm)],
            events := s.events,
            trace := s.trace ++ pre ++
              [Op.executeTemplate true, Op.workDone, Op.workAdd, Op.callDumpFn nm,
               Op.workDone, Op.pauseCheck] }

/-- The dispatch loop: the queue hands the consumer the sent items in
FIFO order and the closure runs once per item. -/
def runLoop (cfg : NodeCfg) (s : DumperState) (pkts : List Packet) : DumperState :=
  pkts.foldl (handlePkt cfg) s

/-- The state of a freshly constructed dumper: `d.count` has the Go zero
value 0 and `d.data` is the user-supplied map. -/
def initState (dta : List (String × GoVal)) : DumperState :=
  { count := 0, data := dta, incomingRate := 0, events := [], dumps := [], trace := [] }

/-- A compiled `text/template`, abstracted to its execute function. -/
def Template : Type := List (String × GoVal) → Except String String

/-- One `astistat.StatMetadata` literal. -/
structure StatMetadata where
  description : String
  label : String
  unit : String
deriving DecidableEq

/-- One registration against the node's stater in `addStats`: a stat with
its metadata, or the queue's own stats added by `d.q.AddStats`. -/
inductive RegisteredStat where
  | stat (md : StatMetadata)
  | queueStats
deriving DecidableEq

/-- Metadata of the incoming-rate stat registered by `addStats`. -/
def statIncomingRateMeta : StatMetadata :=
  { description := "Number of packets coming in the pkt dumper per second"
    label := "Incoming rate"
    unit := "pps" }

/-- Metadata of the work-ratio stat registered by `addStats`. -/
def statWorkMeta : StatMetadata :=
  { description := "Percentage of time spent doing some actual work"
    label := "Work ratio"
    unit := "%" }

/-- The constructed `*PktDumper` value: node metadata from the instance
count, the pattern, the dump strategy, the compiled template (`none`
when parsing failed, since `d.t` keeps its nil zero value), the stats
registered by `addStats`, and the initial mutable state. -/
structure PktDumper where
  label : String
  name : String
  tmplPattern : String
  fn : Packet → String → Except String Unit
  t : Option Template
  stats : List RegisteredStat
  st : DumperState

/-- The outcome of `NewPktDumper`: the new value of the package-global
`countPktDumper`, the returned node pointer `d` (always non-nil — the
struct literal is assigned before parsing), the returned error, and the
constructor's operation trace. -/
structure NewResult where
  counter : Nat
  d : PktDumper
  err : Option String
  trace : List Op

/-- `NewPktDumper`: atomically increment the package-global instance
counter (`uint64`, wraps modulo 2^64); build the node with metadata
derived from the new count; register the stats (`addStats`); then parse
the pattern. On parse failure the error is wrapped as
"astilibav: parsing pattern %s as template failed" and the already-built
node is returned with `d.t` still nil. -/
def NewPktDumper (parse : String → Except String Template) (tmplPattern : String)
    (fn : Packet → String → Except String Unit) (dta : List (String × GoVal))
    (countPktDumper : Nat) : NewResult :=
  let count := (countPktDumper + 1) % 2 ^ 64
  let base : PktDumper :=
    { label := "Pkt dumper #" ++ toString count
      name := "pkt_dumper_" ++ toString count
      tmplPattern := tmplPattern
      fn := fn
      t := none
      stats := [RegisteredStat.stat statIncomingRateMeta,
                RegisteredStat.stat statWorkMeta,
                RegisteredStat.queueStats]
      st := initState dta }
  match parse tmplPattern with
  | Except.error e =>
      { counter := count, d := base, trace := [Op.parseTemplate tmplPattern],
        err := some ("astilibav: parsing pattern " ++ tmplPattern ++
          " as template failed: " ++ e) }
  | Except.ok tmpl =>
      { counter := count, d := { base with t := some tmpl },
        trace := [Op.parseTemplate tmplPattern], err := none }

/-- Whether an operation is a template parse. -/
def isParseOp : Op → Bool
  | Op.parseTemplate _ => true
  | _ => false

/-- The OS as seen by `PktDumpFile`: whether `os.Create` and `File.Write`
succeed at a given path, and the error text when they fail. -/
structure OSModel where
  createOk : String → Bool
  createErr : String → String
  writeOk : String → Bool
  writeErr : String → String

/-- `PktDumpFile`: create (truncating) the file at the rendered
destination — on failure return the error wrapped as
"astilibav: creating file %s failed" — then write the payload bytes
`C.GoBytes(pkt.Data(), pkt.Size())` — on failure return the error
wrapped as "astilibav: writing to file %s failed"; the deferred
`f.Close()` needs no modelling. Returns the file system after the call
and the call's outcome. -/
def PktDumpFile (os : OSModel) (fs : List (String × List Nat)) (pkt : Packet)
    (dest : String) : List (String × List Nat) × Except String Unit :=
  if os.createOk dest then
    let fs1 := mapSet fs dest []
    if os.writeOk dest then
      (mapSet fs1 dest pkt.payload, Except.ok ())
    else
      (fs1, Except.error ("astilibav: writing to file " ++ dest ++ " failed: " ++
        os.writeErr dest))
  else
    (fs, Except.error ("astilibav: creating file " ++ dest ++ " failed: " ++
      os.createErr dest))

/-! Helper lemmas about the map model. -/

theorem mapGet_mapSet_same {α : Type} (m : List (String × α)) (k : String) (v : α) :
    mapGet (mapSet m k v) k = some v := by
  induction m with
  | nil => simp [mapSet, mapGet]
  | cons kv rest ih =>
    obtain ⟨k0, v0⟩ := kv
    by_cases h : k0 = k
    · simp [mapSet, mapGet, h]
    · simp [mapSet, mapGet, h, ih]

theorem mapGet_mapSet_other {α : Type} (m : List (String × α)) (k k2 : String) (v : α)
    (h : k ≠ k2) : mapGet (mapSet m k v) k2 = mapGet m k2 := by
  induction m with
  | nil => simp [mapSet, mapGet, h]
  | cons kv rest ih =>
    obtain ⟨k0, v0⟩ := kv
    by_cases h0 : k0 = k
    · subst h0
      simp [mapSet, mapGet, h]
    · simp [mapSet, mapGet, h0, ih]

/-! Helper lemmas characterising one pass of the dispatch closure. -/

theorem handlePkt_count (cfg : NodeCfg) (s : DumperState) (pkt : Packet) :
    (handlePkt cfg s pkt).count = newCount s := by
  rcases h : cfg.execute (publishVars s pkt) with e | nm
  · simp [handlePkt, h]
  · rcases h2 : cfg.fn pkt nm with e | u <;> simp [handlePkt, h, h2]

theorem handlePkt_data (cfg : NodeCfg) (s : DumperState) (pkt : Packet) :
    (handlePkt cfg s pkt).data = publishVars s pkt := by
  rcases h : cfg.execute (publishVars s pkt) with e | nm
  · simp [handlePkt, h]
  · rcases h2 : cfg.fn pkt nm with e | u <;> simp [handlePkt, h, h2]

theorem handlePkt_incomingRate (cfg : NodeCfg) (s : DumperState) (pkt : Packet) :
    (handlePkt cfg s pkt).incomingRate = s.incomingRate + 1 := by
  rcases h : cfg.execute (publishVars s pkt) with e | nm
  · simp [handlePkt, h]
  · rcases h2 : cfg.fn pkt nm with e | u <;> simp [handlePkt, h, h2]

theorem handlePkt_trace (cfg : NodeCfg) (s : DumperState) (pkt : Packet) :
    (handlePkt cfg s pkt).trace = s.trace ++
      ([Op.incIncomingRate, Op.incCount (newCount s),
        Op.publishData (newCount s) pkt.pts pkt.streamIndex, Op.workAdd] ++
       match cfg.execute (publishVars s pkt) with
       | Except.error e =>
           [Op.executeTemplate false, Op.workDone,
            Op.emitEvent (Event.errExecuteTemplate cfg.tmplPattern (publishVars s pkt) e),
            Op.pauseCheck]
       | Except.ok nm =>
           [Op.executeTemplate true, Op.workDone, Op.workAdd, Op.callDumpFn nm] ++
           match cfg.fn pkt nm with
           | Except.error e => [Op.workDone, Op.emitEvent (Event.errDumpFn nm e), Op.pauseCheck]
           | Except.ok _ => [Op.workDone, Op.pauseCheck]) := by
  rcases h : cfg.execute (publishVars s pkt) with e | nm
  · simp [handlePkt, h]
  · rcases h2 : cfg.fn pkt nm with e | u <;> simp [handlePkt, h, h2]

/-! Helper lemmas about the dispatch loop. -/

theorem runLoop_nil (cfg : NodeCfg) (s : DumperState) : runLoop cfg s [] = s := rfl

theorem runLoop_cons (cfg : NodeCfg) (s : DumperState) (p : Packet) (rest : List Packet) :
    runLoop cfg s (p :: rest) = runLoop cfg (handlePkt cfg s p) rest := rfl

theorem runLoop_append (cfg : NodeCfg) (s : DumperState) (l1 l2 : List Packet) :
    runLoop cfg s (l1 ++ l2) = runLoop cfg (runLoop cfg s l1) l2 :=
  List.foldl_append _ _ _ _

theorem runLoop_count_mod (cfg : NodeCfg) (pkts : List Packet) (s : DumperState) :
    (runLoop cfg s pkts).count % 2 ^ 32 = (s.count + pkts.length) % 2 ^ 32 := by
  induction pkts generalizing s with
  | nil => simp [runLoop]
  | cons p rest ih =>
    rw [runLoop_cons, ih, handlePkt_count]
    simp only [newCount, Nat.mod_add_mod, List.length_cons]
    congr 1
    omega

theorem runLoop_count_lt (cfg : NodeCfg) (pkts : List Packet) (s : DumperState)
    (h : s.count < 2 ^ 32) : (runLoop cfg s pkts).count < 2 ^ 32 := by
  induction pkts generalizing s with
  | nil => exact h
  | cons p rest ih =>
    rw [runLoop_cons]
    exact ih _ (by rw [handlePkt_count]; exact Nat.mod_lt _ (by norm_num))

/-- The sequence-count values published into the naming map, read off the
trace in dispatch order. -/
def publishedCounts (tr : List Op) : List Nat :=
  tr.filterMap fun o =>
    match o with
    | Op.publishData c _ _ => some c
    | _ => none

theorem handlePkt_publishedCounts (cfg : NodeCfg) (s : DumperState) (pkt : Packet) :
    publishedCounts (handlePkt cfg s pkt).trace =
      publishedCounts s.trace ++ [newCount s] := by
  rw [publishedCounts, handlePkt_trace, List.filterMap_append]
  rcases h : cfg.execute (publishVars s pkt) with e | nm
  · simp [h, publishedCounts]
  · rcases h2 : cfg.fn pkt nm with e | u <;> simp [h, h2, publishedCounts]

/-- The successive wrapped values of a `uint32` counter that starts at
`c` and is incremented `n` times. -/
def countsFrom : Nat → Nat → List Nat
  | _, 0 => []
  | c, n + 1 => ((c + 1) % 2 ^ 32) :: countsFrom ((c + 1) % 2 ^ 32) n

theorem runLoop_publishedCounts (cfg : NodeCfg) (pkts : List Packet) (s : DumperState) :
    publishedCounts (runLoop cfg s pkts).trace =
      publishedCounts s.trace ++ countsFrom s.count pkts.length := by
  induction pkts generalizing s with
  | nil => simp [runLoop, countsFrom]
  | cons p rest ih =>
    rw [runLoop_cons, ih, handlePkt_publishedCounts, handlePkt_count, List.length_cons]
    show _ = publishedCounts s.trace ++ (newCount s :: countsFrom (newCount s) rest.length)
    simp [newCount]

theorem countsFrom_no_wrap (n : Nat) : ∀ c : Nat, c + n < 2 ^ 32 →
    countsFrom c n = List.range' (c + 1) n := by
  induction n with
  | zero => intro c _; rfl
  | succ m ih =>
    intro c h
    have h1 : (c + 1) % 2 ^ 32 = c + 1 := Nat.mod_eq_of_lt (by omega)
    show ((c + 1) % 2 ^ 32) :: countsFrom ((c + 1) % 2 ^ 32) m = (c + 1) :: List.range' (c + 1 + 1) m
    rw [h1, ih (c + 1) (by omega)]

/-! Concrete fixtures used by witnesses and counterexamples. -/

/-- A sample packet with timestamp 5, stream index 7 and three payload bytes. -/
def pkt0 : Packet := { pts := 5, streamIndex := 7, payload := [1, 2, 3] }

/-- A node whose template always renders "X" and whose dump strategy succeeds. -/
def cfgOk : NodeCfg :=
  { tmplPattern := "p", execute := fun _ => Except.ok "X", fn := fun _ _ => Except.ok () }

/-- A node whose template execution always fails with cause "boom". -/
def cfgRenderErr : NodeCfg :=
  { tmplPattern := "p", execute := fun _ => Except.error "boom", fn := fun _ _ => Except.ok () }

/-- A node with pattern "A" whose template renders "X" and whose dump strategy fails. -/
def cfgDumpErrA : NodeCfg :=
  { tmplPattern := "A", execute := fun _ => Except.ok "X", fn := fun _ _ => Except.error "boom" }

/-- Same as `cfgDumpErrA` but with pattern "B". -/
def cfgDumpErrB : NodeCfg := { cfgDumpErrA with tmplPattern := "B" }

/-- A template parser that always fails, as Go template parsing does on a
malformed pattern. -/
def parseFail : String → Except String Template := fun _ => Except.error "unexpected EOF"

/-! Claim C1. -/

/-- Claim C1, as stated, is false on the code: `d.count` is a `uint32`, so
after dispatching 2^32 items the counter has wrapped back to 0 instead of
equalling the number of items — the counter does reset. -/
theorem c1_counterexample_wrap :
    (runLoop cfgOk (initState []) (List.replicate (2 ^ 32) pkt0)).count = 0 ∧
    (List.replicate (2 ^ 32) pkt0).length = 2 ^ 32 ∧ (0 : Nat) ≠ 2 ^ 32 := by
  have hlen : (List.replicate (2 ^ 32) pkt0).length = 2 ^ 32 :=
    List.length_replicate _ _
  refine ⟨?_, hlen, by norm_num⟩
  have h1 := runLoop_count_mod cfgOk (List.replicate (2 ^ 32) pkt0) (initState [])
  have h2 := runLoop_count_lt cfgOk (List.replicate (2 ^ 32) pkt0) (initState [])
    (Nat.lt_of_lt_of_le Nat.zero_lt_one (by norm_num))
  rw [Nat.mod_eq_of_lt h2] at h1
  have hc : (initState ([] : List (String × GoVal))).count = 0 := rfl
  rw [hlen, hc] at h1
  rw [h1]
  norm_num

/-- Claim C1 (amended for the 32-bit wrap): the sequence counter starts at
0 and each dequeued item increments it by exactly 1 modulo 2^32; for every
run of N < 2^32 items the counter afterwards equals N and the `count`
values published for rendering are exactly 1..N in dispatch order. -/
theorem c1_sequence_counter (cfg : NodeCfg) (dta : List (String × GoVal))
    (pkts : List Packet) (h : pkts.length < 2 ^ 32) :
    (initState dta).count = 0 ∧
    (∀ s pkt, (handlePkt cfg s pkt).count = (s.count + 1) % 2 ^ 32) ∧
    (runLoop cfg (initState dta) pkts).count = pkts.length ∧
    publishedCounts (runLoop cfg (initState dta) pkts).trace = List.range' 1 pkts.length := by
  refine ⟨rfl, fun s pkt => handlePkt_count cfg s pkt, ?_, ?_⟩
  · have h1 := runLoop_count_mod cfg pkts (initState dta)
    have h2 := runLoop_count_lt cfg pkts (initState dta) (by norm_num [initState])
    rw [Nat.mod_eq_of_lt h2] at h1
    rw [h1]
    have hc : (initState dta).count = 0 := rfl
    rw [hc]
    omega
  · rw [runLoop_publishedCounts]
    have h0 : publishedCounts (initState dta).trace = [] := rfl
    rw [h0]
    have hc := countsFrom_no_wrap pkts.length 0 (by omega)
    simpa using hc

/-- Witness for `c1_sequence_counter` at a run of three packets. -/
theorem c1_sequence_counter_witness :
    ([pkt0, pkt0, pkt0] : List Packet).length < 2 ^ 32 ∧
    ((initState []).count = 0 ∧
     (∀ s pkt, (handlePkt cfgOk s pkt).count = (s.count + 1) % 2 ^ 32) ∧
     (runLoop cfgOk (initState []) [pkt0, pkt0, pkt0]).count = [pkt0, pkt0, pkt0].length ∧
     publishedCounts (runLoop cfgOk (initState []) [pkt0, pkt0, pkt0]).trace =
       List.range' 1 [pkt0, pkt0, pkt0].length) :=
  ⟨by norm_num, c1_sequence_counter cfgOk [] [pkt0, pkt0, pkt0] (by norm_num)⟩

/-! Claim C2. -/

/-- Claim C2, as stated, is false on the code: after dispatching a packet
the naming map holds no variable named "streamIndex"; the stream index is
published under the key "stream_idx". -/
theorem c2_counterexample_streamIndex_key :
    mapGet (handlePkt cfgOk (initState []) pkt0).data "streamIndex" = none ∧
    mapGet (handlePkt cfgOk (initState []) pkt0).data "stream_idx" = some (GoVal.vInt 7) :=
  ⟨rfl, rfl⟩

/-- Claim C2 (amended: the stream-index variable is named "stream_idx",
not "streamIndex"): before rendering, the loop publishes exactly the
variables "count" (the new sequence value), "pts" (the item's timestamp)
and "stream_idx" (the item's stream index); every other key — the static
user data — keeps its value, so rendering sees these three plus all user
keys. -/
theorem c2_published_variables (cfg : NodeCfg) (s : DumperState) (pkt : Packet) :
    mapGet (handlePkt cfg s pkt).data "count" = some (GoVal.vUInt32 (newCount s)) ∧
    mapGet (handlePkt cfg s pkt).data "pts" = some (GoVal.vInt pkt.pts) ∧
    mapGet (handlePkt cfg s pkt).data "stream_idx" = some (GoVal.vInt pkt.streamIndex) ∧
    ∀ k : String, k ≠ "count" → k ≠ "pts" → k ≠ "stream_idx" →
      mapGet (handlePkt cfg s pkt).data k = mapGet s.data k := by
  rw [handlePkt_data]
  unfold publishVars
  refine ⟨?_, ?_, ?_, ?_⟩
  · rw [mapGet_mapSet_other _ _ _ _ (by decide), mapGet_mapSet_other _ _ _ _ (by decide),
      mapGet_mapSet_same]
  · rw [mapGet_mapSet_other _ _ _ _ (by decide), mapGet_mapSet_same]
  · rw [mapGet_mapSet_same]
  · intro k h1 h2 h3
    rw [mapGet_mapSet_other _ _ _ _ (Ne.symm h3), mapGet_mapSet_other _ _ _ _ (Ne.symm h2),
      mapGet_mapSet_other _ _ _ _ (Ne.symm h1)]

/-- Witness for `c2_published_variables`: a user key survives one dispatch. -/
theorem c2_published_variables_witness :
    mapGet (handlePkt cfgOk (initState [("user", GoVal.vOther "u")]) pkt0).data "user" =
      mapGet (initState [("user", GoVal.vOther "u")]).data "user" :=
  (c2_published_variables cfgOk (initState [("user", GoVal.vOther "u")]) pkt0).2.2.2
    "user" (by decide) (by decide) (by decide)

/-! Claim C3. -/

/-- Claim C3: whenever rendering the compiled template against the
published naming map fails (the template engine itself is an external
collaborator, modelled abstractly), exactly one render-error event is
emitted — carrying the pattern, the naming-data snapshot and the cause —
the dump strategy is not invoked for that item, and the loop proceeds to
the next item. -/
theorem c3_render_error (cfg : NodeCfg) (s : DumperState) (pkt : Packet) (e : String)
    (h : cfg.execute (publishVars s pkt) = Except.error e) :
    (handlePkt cfg s pkt).events =
      s.events ++ [Event.errExecuteTemplate cfg.tmplPattern (publishVars s pkt) e] ∧
    (handlePkt cfg s pkt).dumps = s.dumps ∧
    ∀ rest : List Packet,
      runLoop cfg s (pkt :: rest) = runLoop cfg (handlePkt cfg s pkt) rest := by
  refine ⟨?_, ?_, fun rest => rfl⟩ <;> simp [handlePkt, h]

/-- Witness for `c3_render_error` on a node whose render always fails. -/
theorem c3_render_error_witness :
    cfgRenderErr.execute (publishVars (initState []) pkt0) = Except.error "boom" ∧
    ((handlePkt cfgRenderErr (initState []) pkt0).events =
       (initState []).events ++
         [Event.errExecuteTemplate cfgRenderErr.tmplPattern
           (publishVars (initState []) pkt0) "boom"] ∧
     (handlePkt cfgRenderErr (initState []) pkt0).dumps = (initState []).dumps ∧
     ∀ rest : List Packet,
       runLoop cfgRenderErr (initState []) (pkt0 :: rest) =
         runLoop cfgRenderErr (handlePkt cfgRenderErr (initState []) pkt0) rest) :=
  ⟨rfl, c3_render_error cfgRenderErr (initState []) pkt0 "boom" rfl⟩

/-! Claim C4. -/

/-- One pass of the dispatch closure performs no template parse. -/
theorem handlePkt_countP_parse (cfg : NodeCfg) (s : DumperState) (pkt : Packet) :
    ((handlePkt cfg s pkt).trace).countP isParseOp = s.trace.countP isParseOp := by
  rw [handlePkt_trace, List.countP_append]
  rcases h : cfg.execute (publishVars s pkt) with e | nm
  · simp [isParseOp, h]
  · rcases h2 : cfg.fn pkt nm with e | u <;> simp [isParseOp, h, h2]

/-- The dispatch loop performs no template parse. -/
theorem runLoop_countP_parse (cfg : NodeCfg) (pkts : List Packet) : ∀ s : DumperState,
    ((runLoop cfg s pkts).trace).countP isParseOp = s.trace.countP isParseOp := by
  induction pkts with
  | nil => intro s; rfl
  | cons p rest ih =>
    intro s
    rw [runLoop_cons, ih, handlePkt_countP_parse]

/-- Claim C4: the pattern is compiled exactly once, at construction. On a
parse failure the constructor returns an error wrapping the parse error
and naming the offending pattern, and the node carries no compiled
template (it is unusable); on success the compiled template is stored.
The dispatch loop never parses, so the template is never recompiled. -/
theorem c4_compile_once (parse : String → Except String Template) (tp : String)
    (fn : Packet → String → Except String Unit) (dta : List (String × GoVal)) (cnt : Nat) :
    (∀ e, parse tp = Except.error e →
       (NewPktDumper parse tp fn dta cnt).err =
         some ("astilibav: parsing pattern " ++ tp ++ " as template failed: " ++ e) ∧
       (NewPktDumper parse tp fn dta cnt).d.t = none) ∧
    (∀ tmpl, parse tp = Except.ok tmpl →
       (NewPktDumper parse tp fn dta cnt).d.t = some tmpl ∧
       (NewPktDumper parse tp fn dta cnt).err = none) ∧
    ((NewPktDumper parse tp fn dta cnt).trace.countP isParseOp = 1) ∧
    (∀ cfg s pkts, ((runLoop cfg s pkts).trace.countP isParseOp) = s.trace.countP isParseOp) := by
  refine ⟨?_, ?_, ?_, fun cfg s pkts => runLoop_countP_parse cfg pkts s⟩
  · intro e he
    constructor <;> simp [NewPktDumper, he]
  · intro tmpl ht
    constructor <;> simp [NewPktDumper, ht]
  · rcases hp : parse tp with e | tmpl <;> simp [NewPktDumper, hp, isParseOp]

/-- Witness for `c4_compile_once` on an always-failing parser. -/
theorem c4_compile_once_witness :
    parseFail "p" = Except.error "unexpected EOF" ∧
    ((NewPktDumper parseFail "p" (fun _ _ => Except.ok ()) [] 0).err =
       some ("astilibav: parsing pattern " ++ "p" ++ " as template failed: " ++
         "unexpected EOF") ∧
     (NewPktDumper parseFail "p" (fun _ _ => Except.ok ()) [] 0).d.t = none) :=
  ⟨rfl, (c4_compile_once parseFail "p" (fun _ _ => Except.ok ()) [] 0).1 "unexpected EOF" rfl⟩

/-! Claim C5. -/

/-- Claim C5, as stated, is false on the code: two nodes with different
patterns but the same rendered name and the same failing dump strategy
emit identical error events, so the emitted event cannot contain the
pattern — it carries only the rendered name and the underlying cause
(the Go code wraps with "pkt dump func with pattern %s failed" where %s
is `buf`, the rendered name, not `d.pattern`). -/
theorem c5_counterexample_pattern_absent :
    (handlePkt cfgDumpErrA (initState []) pkt0).events =
      (handlePkt cfgDumpErrB (initState []) pkt0).events ∧
    cfgDumpErrA.tmplPattern ≠ cfgDumpErrB.tmplPattern ∧
    (handlePkt cfgDumpErrA (initState []) pkt0).events = [Event.errDumpFn "X" "boom"] :=
  ⟨rfl, by decide, rfl⟩

/-- Claim C5 (amended: the event carries the rendered name and the cause,
not the original pattern): when the dump strategy fails for an item,
exactly one error event is emitted containing the rendered name and the
underlying cause, the item is dropped (not retried), and the loop
proceeds to the next item, which is processed normally. -/
theorem c5_dump_error (cfg : NodeCfg) (s : DumperState) (pkt : Packet) (nm e : String)
    (hex : cfg.execute (publishVars s pkt) = Except.ok nm)
    (hfn : cfg.fn pkt nm = Except.error e) :
    (handlePkt cfg s pkt).events = s.events ++ [Event.errDumpFn nm e] ∧
    (handlePkt cfg s pkt).dumps = s.dumps ++ [(pkt, nm)] ∧
    ∀ rest : List Packet,
      runLoop cfg s (pkt :: rest) = runLoop cfg (handlePkt cfg s pkt) rest := by
  refine ⟨?_, ?_, fun rest => rfl⟩ <;> simp [handlePkt, hex, hfn]

/-- Witness for `c5_dump_error` on a node whose dump strategy always fails. -/
theorem c5_dump_error_witness :
    cfgDumpErrA.execute (publishVars (initState []) pkt0) = Except.ok "X" ∧
    cfgDumpErrA.fn pkt0 "X" = Except.error "boom" ∧
    ((handlePkt cfgDumpErrA (initState []) pkt0).events =
       (initState []).events ++ [Event.errDumpFn "X" "boom"] ∧
     (handlePkt cfgDumpErrA (initState []) pkt0).dumps =
       (initState []).dumps ++ [(pkt0, "X")] ∧
     ∀ rest : List Packet,
       runLoop cfgDumpErrA (initState []) (pkt0 :: rest) =
         runLoop cfgDumpErrA (handlePkt cfgDumpErrA (initState []) pkt0) rest) :=
  ⟨rfl, rfl, c5_dump_error cfgDumpErrA (initState []) pkt0 "X" "boom" rfl rfl⟩

/-! Claim C6. -/

/-- Claim C6: the default dump strategy creates (truncating) the file at
the destination path, writes the packet's payload bytes verbatim, and
returns success; if creation fails it returns the error wrapped with the
destination path and leaves the file system unchanged; if the write
fails it returns the error wrapped with the destination path (the file
is left created and truncated); no other file is touched. -/
theorem c6_PktDumpFile (os : OSModel) (fs : List (String × List Nat)) (pkt : Packet)
    (dest : String) :
    (os.createOk dest = true → os.writeOk dest = true →
       mapGet (PktDumpFile os fs pkt dest).1 dest = some pkt.payload ∧
       (PktDumpFile os fs pkt dest).2 = Except.ok ()) ∧
    (os.createOk dest = false →
       (PktDumpFile os fs pkt dest).1 = fs ∧
       (PktDumpFile os fs pkt dest).2 =
         Except.error ("astilibav: creating file " ++ dest ++ " failed: " ++
           os.createErr dest)) ∧
    (os.createOk dest = true → os.writeOk dest = false →
       mapGet (PktDumpFile os fs pkt dest).1 dest = some [] ∧
       (PktDumpFile os fs pkt dest).2 =
         Except.error ("astilibav: writing to file " ++ dest ++ " failed: " ++
           os.writeErr dest)) ∧
    (∀ q, q ≠ dest → mapGet (PktDumpFile os fs pkt dest).1 q = mapGet fs q) := by
  refine ⟨?_, ?_, ?_, ?_⟩
  · intro h1 h2
    constructor <;> simp [PktDumpFile, h1, h2, mapGet_mapSet_same]
  · intro h1
    constructor <;> simp [PktDumpFile, h1]
  · intro h1 h2
    constructor <;> simp [PktDumpFile, h1, h2, mapGet_mapSet_same]
  · intro q hq
    by_cases h1 : os.createOk dest <;> by_cases h2 : os.writeOk dest <;>
      simp [PktDumpFile, h1, h2, mapGet_mapSet_other _ _ _ _ (Ne.symm hq)]

/-- An OS on which every create and write succeeds. -/
def osAllOk : OSModel :=
  { createOk := fun _ => true, createErr := fun _ => ""
    writeOk := fun _ => true, writeErr := fun _ => "" }

/-- Witness for `c6_PktDumpFile`: dumping `pkt0` to "f" on a healthy OS
stores the payload bytes verbatim at "f" and succeeds. -/
theorem c6_PktDumpFile_witness :
    osAllOk.createOk "f" = true ∧ osAllOk.writeOk "f" = true ∧
    (mapGet (PktDumpFile osAllOk [] pkt0 "f").1 "f" = some pkt0.payload ∧
     (PktDumpFile osAllOk [] pkt0 "f").2 = Except.ok ()) :=
  ⟨rfl, rfl, (c6_PktDumpFile osAllOk [] pkt0 "f").1 rfl rfl⟩

/-! Claim C7. -/

/-- Claim C7, as stated, is false on the code: under the claim's key
names only "count", "pts" and "streamIndex" may change, so a
user-supplied static value under the key "stream_idx" should stay
constant — yet the first handled item overwrites it with the packet's
stream index. -/
theorem c7_counterexample_stream_idx_overwritten :
    mapGet (initState [("stream_idx", GoVal.vOther "u")]).data "stream_idx" =
      some (GoVal.vOther "u") ∧
    mapGet (handlePkt cfgOk (initState [("stream_idx", GoVal.vOther "u")]) pkt0).data
      "stream_idx" = some (GoVal.vInt 7) :=
  ⟨rfl, rfl⟩

/-- Claim C7 (amended: the mutated keys are "count", "pts" and
"stream_idx"): per-item handling mutates only these three keys of the
shared naming map; every other key keeps its value over any run of the
loop. -/
theorem c7_other_keys_constant (cfg : NodeCfg) (s : DumperState) (pkts : List Packet)
    (k : String) (h1 : k ≠ "count") (h2 : k ≠ "pts") (h3 : k ≠ "stream_idx") :
    mapGet (runLoop cfg s pkts).data k = mapGet s.data k := by
  induction pkts generalizing s with
  | nil => rfl
  | cons p rest ih =>
    rw [runLoop_cons, ih, handlePkt_data]
    unfold publishVars
    rw [mapGet_mapSet_other _ _ _ _ (Ne.symm h3), mapGet_mapSet_other _ _ _ _ (Ne.symm h2),
      mapGet_mapSet_other _ _ _ _ (Ne.symm h1)]

/-- Witness for `c7_other_keys_constant`: the user key "user" survives a
two-item run unchanged. -/
theorem c7_other_keys_constant_witness :
    mapGet (runLoop cfgOk (initState [("user", GoVal.vOther "u")]) [pkt0, pkt0]).data
      "user" = mapGet (initState [("user", GoVal.vOther "u")]).data "user" :=
  c7_other_keys_constant cfgOk (initState [("user", GoVal.vOther "u")]) [pkt0, pkt0]
    "user" (by decide) (by decide) (by decide)

/-! Claim C8. -/

/-- Claim C8, as stated, is false on the code: `PktDumper.Start` runs
`defer d.HandlePause()`, so for a concrete fully-successful item the
dispatch closure's first operation is the incoming-rate increment and the
pause-gate check is its last operation — after the render and the dump
call, not before processing. -/
theorem c8_counterexample_pause_not_first :
    (handlePkt cfgOk (initState []) pkt0).trace =
      [Op.incIncomingRate, Op.incCount 1, Op.publishData 1 5 7, Op.workAdd,
       Op.executeTemplate true, Op.workDone, Op.workAdd, Op.callDumpFn "X",
       Op.workDone, Op.pauseCheck] ∧
    (handlePkt cfgOk (initState []) pkt0).trace.head? ≠ some Op.pauseCheck :=
  ⟨rfl, by decide⟩

/-- Claim C8 (amended: the pause gate is checked after, not before, each
item): the dispatch closure checks the pause gate exactly once per item,
as its last operation — via the deferred `HandlePause` — so a pause
blocks the loop only between items: the item being processed completes
(including its dump), no later item starts while paused, and queued items
are dispatched in order after resume. -/
theorem c8_pause_after_item (cfg : NodeCfg) (s : DumperState) (pkt : Packet) :
    ∃ pre : List Op, (handlePkt cfg s pkt).trace = s.trace ++ pre ++ [Op.pauseCheck] ∧
      Op.pauseCheck ∉ pre ∧ pre ≠ [] := by
  rcases h : cfg.execute (publishVars s pkt) with e | nm
  · refine ⟨[Op.incIncomingRate, Op.incCount (newCount s),
      Op.publishData (newCount s) pkt.pts pkt.streamIndex, Op.workAdd,
      Op.executeTemplate false, Op.workDone,
      Op.emitEvent (Event.errExecuteTemplate cfg.tmplPattern (publishVars s pkt) e)],
      ?_, by simp, by simp⟩
    simp [handlePkt, h]
  · rcases h2 : cfg.fn pkt nm with e | u
    · refine ⟨[Op.incIncomingRate, Op.incCount (newCount s),
        Op.publishData (newCount s) pkt.pts pkt.streamIndex, Op.workAdd,
        Op.executeTemplate true, Op.workDone, Op.workAdd, Op.callDumpFn nm,
        Op.workDone, Op.emitEvent (Event.errDumpFn nm e)], ?_, by simp, by simp⟩
      simp [handlePkt, h, h2]
    · refine ⟨[Op.incIncomingRate, Op.incCount (newCount s),
        Op.publishData (newCount s) pkt.pts pkt.streamIndex, Op.workAdd,
        Op.executeTemplate true, Op.workDone, Op.workAdd, Op.callDumpFn nm,
        Op.workDone], ?_, by simp, by simp⟩
      simp [handlePkt, h, h2]

/-! Claim C9. -/

/-- Claim C9: for every dequeued item the steps run in the specified
order — the incoming-rate counter is incremented first (so it counts
every item entering handling, also those whose render or dump later
fails), then the sequence counter is incremented and the variables
published, then the template is rendered inside a work-measurement
bracket, then the dump strategy is invoked inside a second bracket. -/
theorem c9_step_order (cfg : NodeCfg) (s : DumperState) (pkt : Packet) :
    (handlePkt cfg s pkt).incomingRate = s.incomingRate + 1 ∧
    (handlePkt cfg s pkt).trace = s.trace ++
      ([Op.incIncomingRate, Op.incCount (newCount s),
        Op.publishData (newCount s) pkt.pts pkt.streamIndex, Op.workAdd] ++
       match cfg.execute (publishVars s pkt) with
       | Except.error e =>
           [Op.executeTemplate false, Op.workDone,
            Op.emitEvent (Event.errExecuteTemplate cfg.tmplPattern (publishVars s pkt) e),
            Op.pauseCheck]
       | Except.ok nm =>
           [Op.executeTemplate true, Op.workDone, Op.workAdd, Op.callDumpFn nm] ++
           match cfg.fn pkt nm with
           | Except.error e =>
               [Op.workDone, Op.emitEvent (Event.errDumpFn nm e), Op.pauseCheck]
           | Except.ok _ => [Op.workDone, Op.pauseCheck]) :=
  ⟨handlePkt_incomingRate cfg s pkt, handlePkt_trace cfg s pkt⟩

/-! Claim C10. -/

/-- Claim C10: when template parsing fails, `NewPktDumper` still returns
a node value alongside the non-nil error, and the side effects performed
before parsing persist: the process-wide instance counter has been
incremented (the failed construction consumes a node number, visible in
the returned node's label and name) and the node's stats are already
registered. -/
theorem c10_side_effects_on_parse_failure (parse : String → Except String Template)
    (tp : String) (fn : Packet → String → Except String Unit)
    (dta : List (String × GoVal)) (cnt : Nat) (e : String)
    (h : parse tp = Except.error e) :
    (NewPktDumper parse tp fn dta cnt).counter = (cnt + 1) % 2 ^ 64 ∧
    (NewPktDumper parse tp fn dta cnt).err ≠ none ∧
    (NewPktDumper parse tp fn dta cnt).d.label =
      "Pkt dumper #" ++ toString ((cnt + 1) % 2 ^ 64) ∧
    (NewPktDumper parse tp fn dta cnt).d.name =
      "pkt_dumper_" ++ toString ((cnt + 1) % 2 ^ 64) ∧
    (NewPktDumper parse tp fn dta cnt).d.stats =
      [RegisteredStat.stat statIncomingRateMeta, RegisteredStat.stat statWorkMeta,
       RegisteredStat.queueStats] ∧
    (NewPktDumper parse tp fn dta cnt).d.st = initState dta := by
  refine ⟨?_, ?_, ?_, ?_, ?_, ?_⟩ <;> simp [NewPktDumper, h]

/-- Witness for `c10_side_effects_on_parse_failure`: a failed construction
with prior instance count 3 still takes node number 4 and has its stats
registered. -/
theorem c10_side_effects_on_parse_failure_witness :
    parseFail "p" = Except.error "unexpected EOF" ∧
    ((NewPktDumper parseFail "p" (fun _ _ => Except.ok ()) [] 3).counter = (3 + 1) % 2 ^ 64 ∧
     (NewPktDumper parseFail "p" (fun _ _ => Except.ok ()) [] 3).err ≠ none ∧
     (NewPktDumper parseFail "p" (fun _ _ => Except.ok ()) [] 3).d.label =
       "Pkt dumper #" ++ toString ((3 + 1) % 2 ^ 64) ∧
     (NewPktDumper parseFail "p" (fun _ _ => Except.ok ()) [] 3).d.name =
       "pkt_dumper_" ++ toString ((3 + 1) % 2 ^ 64) ∧
     (NewPktDumper parseFail "p" (fun _ _ => Except.ok ()) [] 3).d.stats =
       [RegisteredStat.stat statIncomingRateMeta, RegisteredStat.stat statWorkMeta,
        RegisteredStat.queueStats] ∧
     (NewPktDumper parseFail "p" (fun _ _ => Except.ok ()) [] 3).d.st = initState []) :=
  ⟨rfl, c10_side_effects_on_parse_failure parseFail "p" (fun _ _ => Except.ok ()) [] 3
    "unexpected EOF" rfl⟩

end Astilibav
